import Mathlib

/-!
Verification of the Intent Resolution & Temporal Normalization Engine of the
MicrosoftToDo-Telegram-AIBot repository.

The Python sources embedded here:
  - `ai_service.py` : `_robust_json_parse`, `_validate_and_fix_dates`,
    `_analyze_intent`, `_resolve_task_id_and_details`
  - `ai/decompose.py` : `decompose_task` (subtask date accumulation, fallback)
  - `ai/time_validator.py` : `validate_reminder_time`
  - `utils/datetime_helper.py` : `calculate_relative_time` is imported by
    `ai/intent.py` and `ai/decompose.py` but its definition is not present in
    the sources; it is modelled from the spec (see its doc comment).

Draft dictionaries are modelled as records of three-valued fields
(absent / null / string), mirroring a Python dict whose keys may be missing,
None, or strings; `confidence` is a separate numeric field.  Naive datetimes
are modelled at minute granularity (a calendar date plus minute-of-day), which
is faithful for every comparison the embedded code performs.  Remote model
calls are modelled by explicit outcome values passed to the embedded
functions: an exception, a response without a structured payload, or a
response carrying a payload.
-/

/-- A value stored under a key of a Python dict produced from model JSON:
the key can be missing (`absent`), present with `None` (`null`), or present
with a string. -/
inductive JField where
  | absent
  | null
  | str (s : String)
deriving DecidableEq, Repr

/-- The action draft dictionary flowing through the pipeline: the union
of the keys produced by `_analyze_intent` and `_resolve_task_id_and_details`
(cf. the prompt schemas in `ai_service.py` and `ai/function_tools.py`). -/
structure Draft where
  action : JField
  title : JField
  description : JField
  due_date : JField
  reminder_date : JField
  reminder_time : JField
  search_query : JField
  todo_id : JField
  target_description : JField
  modification_intent : JField
  reasoning : JField
  confidence : Option ℚ
deriving DecidableEq, Repr

/-- The draft with every key missing. -/
def emptyDraft : Draft :=
  { action := JField.absent, title := JField.absent, description := JField.absent
  , due_date := JField.absent, reminder_date := JField.absent
  , reminder_time := JField.absent, search_query := JField.absent
  , todo_id := JField.absent, target_description := JField.absent
  , modification_intent := JField.absent, reasoning := JField.absent
  , confidence := none }

/-- Python `dict.update` on one key: a key present in the update (even with
value `None`) overwrites; a missing key keeps the base value. -/
def dictUpdateField (a b : JField) : JField :=
  match b with
  | JField.absent => a
  | _ => b

/-- `final_result = initial_analysis.copy(); final_result.update(result)`
(`ai_service.py` lines 319-320), keywise. -/
def dictUpdate (init upd : Draft) : Draft :=
  { action := dictUpdateField init.action upd.action
  , title := dictUpdateField init.title upd.title
  , description := dictUpdateField init.description upd.description
  , due_date := dictUpdateField init.due_date upd.due_date
  , reminder_date := dictUpdateField init.reminder_date upd.reminder_date
  , reminder_time := dictUpdateField init.reminder_time upd.reminder_time
  , search_query := dictUpdateField init.search_query upd.search_query
  , todo_id := dictUpdateField init.todo_id upd.todo_id
  , target_description := dictUpdateField init.target_description upd.target_description
  , modification_intent := dictUpdateField init.modification_intent upd.modification_intent
  , reasoning := dictUpdateField init.reasoning upd.reasoning
  , confidence := match upd.confidence with
                  | none => init.confidence
                  | some q => some q }

/-- A proleptic Gregorian calendar date, as in Python `datetime.date`. -/
structure Date where
  year : Nat
  month : Nat
  day : Nat
deriving DecidableEq, Repr

/-- A naive local datetime at minute granularity: `date` plus minute-of-day
(`time < 1440` for well-formed values). -/
structure DateTime where
  date : Date
  time : Nat
deriving DecidableEq, Repr

/-- Gregorian leap-year rule (as used by Python `datetime`). -/
def isLeap (y : Nat) : Bool :=
  (y % 4 == 0 && y % 100 != 0) || y % 400 == 0

/-- Number of days of month `m` of year `y`. -/
def daysInMonth (y m : Nat) : Nat :=
  if m = 2 then (if isLeap y then 29 else 28)
  else if m = 4 ∨ m = 6 ∨ m = 9 ∨ m = 11 then 30
  else 31

/-- Validity of a date, as enforced by the `datetime` constructor
(`MINYEAR = 1`; Python also enforces `year ≤ 9999`, which the theorems carry
as an explicit hypothesis where relevant). -/
def ValidDate (d : Date) : Prop :=
  1 ≤ d.year ∧ 1 ≤ d.month ∧ d.month ≤ 12 ∧ 1 ≤ d.day ∧ d.day ≤ daysInMonth d.year d.month

instance (d : Date) : Decidable (ValidDate d) := by
  unfold ValidDate; exact inferInstance

/-- Strict order on dates (lexicographic), i.e. Python `date.__lt__`. -/
def dateLt (a b : Date) : Prop :=
  a.year < b.year ∨ (a.year = b.year ∧ (a.month < b.month ∨ (a.month = b.month ∧ a.day < b.day)))

instance (a b : Date) : Decidable (dateLt a b) := by
  unfold dateLt; exact inferInstance

/-- The day after `d`, i.e. `d + timedelta(days=1)` restricted to the date. -/
def nextDay (d : Date) : Date :=
  if d.day < daysInMonth d.year d.month then ⟨d.year, d.month, d.day + 1⟩
  else if d.month < 12 then ⟨d.year, d.month + 1, 1⟩
  else ⟨d.year + 1, 1, 1⟩

/-- `d + timedelta(days=n)` restricted to the date. -/
def addDays (d : Date) : Nat → Date
  | 0 => d
  | n + 1 => nextDay (addDays d n)

/-- `now + timedelta(minutes=k)` at minute granularity (for the offsets the
code uses, at most one day of rollover occurs). -/
def addMinutes (now : DateTime) (k : Nat) : DateTime :=
  if now.time + k < 1440 then ⟨now.date, now.time + k⟩
  else ⟨nextDay now.date, now.time + k - 1440⟩

/-- `datetime(d, t) <= now` where the left instant has zero seconds: at minute
granularity this is exactly Python's comparison against a `now` that may carry
seconds. -/
def dtLe (d : Date) (t : Nat) (now : DateTime) : Prop :=
  dateLt d now.date ∨ (d = now.date ∧ t ≤ now.time)

instance (d : Date) (t : Nat) (now : DateTime) : Decidable (dtLe d t now) := by
  unfold dtLe; exact inferInstance

/-- Numeric value of a decimal digit character. -/
def dval (c : Char) : Nat := c.toNat - 48

/-- Two-digit zero-padded decimal rendering (`%m`, `%d`, `%H`, `%M`). -/
def pad2 (n : Nat) : List Char := [Nat.digitChar (n / 10 % 10), Nat.digitChar (n % 10)]

/-- Four-digit zero-padded decimal rendering (`%Y` for years up to 9999). -/
def pad4 (n : Nat) : List Char :=
  [Nat.digitChar (n / 1000 % 10), Nat.digitChar (n / 100 % 10),
   Nat.digitChar (n / 10 % 10), Nat.digitChar (n % 10)]

/-- `strftime('%Y-%m-%d')` as a character list. -/
def formatDateChars (d : Date) : List Char :=
  pad4 d.year ++ '-' :: (pad2 d.month ++ '-' :: pad2 d.day)

/-- `strftime('%Y-%m-%d')`. -/
def formatDate (d : Date) : String := String.mk (formatDateChars d)

/-- `strftime('%H:%M')` of a minute-of-day, as a character list. -/
def formatTimeChars (t : Nat) : List Char :=
  pad2 (t / 60) ++ ':' :: pad2 (t % 60)

/-- `strftime('%H:%M')` of a minute-of-day. -/
def formatTime (t : Nat) : String := String.mk (formatTimeChars t)

/-- One or two digit numeric token as matched by CPython `_strptime`'s
regexes: a two-digit token is taken when its value lies in `[lo, hi]`
(the two-digit alternatives of the pattern), otherwise a single digit of
value at least `oneLo` is taken.  This deterministic longest-first reading is
equivalent to the regex alternation with backtracking, because whenever the
two-digit branch applies the one-digit branch would leave a digit where the
following literal delimiter is required. -/
def parseNum2or1 (lo hi oneLo : Nat) : List Char → Option (Nat × List Char)
  | a :: b :: rest =>
    if a.isDigit && b.isDigit
        && decide (lo ≤ 10 * dval a + dval b) && decide (10 * dval a + dval b ≤ hi) then
      some (10 * dval a + dval b, rest)
    else if a.isDigit && decide (oneLo ≤ dval a) then some (dval a, b :: rest)
    else none
  | [a] => if a.isDigit && decide (oneLo ≤ dval a) then some (dval a, []) else none
  | [] => none

/-- `datetime.strptime(s, '%Y-%m-%d')`: exactly four digits of year, a
dash, a month token (`1[0-2]|0[1-9]|[1-9]`), a dash, a day token
(`3[01]|[12]\d|0[1-9]|[1-9]`), end of input; then the `datetime` constructor
checks `1 ≤ year` and that the day exists in the month. -/
def parseDateChars : List Char → Option Date
  | c1 :: c2 :: c3 :: c4 :: '-' :: rest =>
    if c1.isDigit && c2.isDigit && c3.isDigit && c4.isDigit then
      match parseNum2or1 1 12 1 rest with
      | some (m, '-' :: rest2) =>
        match parseNum2or1 1 31 1 rest2 with
        | some (dd, []) =>
          let y := 1000 * dval c1 + 100 * dval c2 + 10 * dval c3 + dval c4
          if 1 ≤ y ∧ dd ≤ daysInMonth y m then some ⟨y, m, dd⟩ else none
        | _ => none
      | _ => none
    else none
  | _ => none

/-- `datetime.strptime(s, '%Y-%m-%d')` on a string. -/
def parseDate (s : String) : Option Date := parseDateChars s.data

/-- The `%H:%M` tail of `strptime(f"{date} {time}", '%Y-%m-%d %H:%M')`:
hour token `2[0-3]|[0-1]\d|\d`, colon, minute token `[0-5]\d|\d`, end of
input; result as minute-of-day. -/
def parseTimeChars : List Char → Option Nat
  | cs =>
    match parseNum2or1 0 23 0 cs with
    | some (h, ':' :: rest) =>
      match parseNum2or1 0 59 0 rest with
      | some (m, []) => some (60 * h + m)
      | _ => none
    | _ => none

/-- Regex `\s` characters (the format's literal blank is compiled to `\s+`
by CPython `_strptime`, so the time part may carry leading whitespace). -/
def isReWs (c : Char) : Bool :=
  c = ' ' || c = Char.ofNat 9 || c = Char.ofNat 10 || c = Char.ofNat 13
    || c = Char.ofNat 12 || c = Char.ofNat 11

/-- Parsing of the time component of
`strptime(f"{reminder_date} {reminder_time}", '%Y-%m-%d %H:%M')` (the date
component was already checked by the caller): the separating blank absorbs
any leading whitespace of the time string. -/
def parseTimeWs (s : String) : Option Nat :=
  parseTimeChars (s.data.dropWhile isReWs)

/-- Python truthiness of the value looked up for `reminder_time` via
`result.get('reminder_time', '09:00')` as it enters the f-string: a missing
key yields the default string, `None` yields no usable string (the f-string
renders `None`, which can never parse), a string passes through. -/
def reminderTimeVal : JField → Option String
  | JField.absent => some "09:00"
  | JField.null => none
  | JField.str t => some t

/-- The `due_date` branch of `_validate_and_fix_dates` (`ai_service.py`
lines 106-115): skipped for falsy values; a parsed date strictly before
today is replaced by `(now + timedelta(days=1)).strftime('%Y-%m-%d')`; a
non-empty string that fails to parse is set to `None`. -/
def fixDue (now : DateTime) (f : JField) : JField :=
  match f with
  | JField.str s =>
    if s.data.isEmpty then f
    else
      match parseDate s with
      | some d =>
        if dateLt d now.date then JField.str (formatDate (nextDay now.date)) else f
      | none => JField.null
  | _ => f

/-- The reminder branch of `_validate_and_fix_dates` (`ai_service.py`
lines 118-154), returning the new `(reminder_date, reminder_time)` pair:
skipped for falsy `reminder_date`; an unparsable `reminder_date` clears both
fields to `None`; otherwise the combined instant is parsed and, if it is not
after `now`, both fields are replaced by `now + 30` minutes; if the combined
parse fails, the conservative branch adjusts according to how the reminder
date compares with today. -/
def fixReminder (now : DateTime) (rd rt : JField) : JField × JField :=
  match rd with
  | JField.str s =>
    if s.data.isEmpty then (rd, rt)
    else
      match parseDate s with
      | none => (JField.null, JField.null)
      | some d =>
        match (reminderTimeVal rt).bind (fun t => parseTimeWs t) with
        | some tm =>
          if dtLe d tm now then
            (JField.str (formatDate (addMinutes now 30).date),
             JField.str (formatTime (addMinutes now 30).time))
          else (rd, rt)
        | none =>
          if dateLt d now.date then
            (JField.str (formatDate now.date),
             JField.str (formatTime (addMinutes now 60).time))
          else if d = now.date then
            (rd, JField.str (formatTime (addMinutes now 30).time))
          else (rd, rt)
  | _ => (rd, rt)

/-- `_validate_and_fix_dates(result)` of `ai_service.py` (lines 99-156) with
`datetime.now()` made an explicit parameter: the due-date rule runs first,
then the reminder rule; the two read and write disjoint fields. -/
def validate_and_fix_dates (now : DateTime) (r : Draft) : Draft :=
  let due := fixDue now r.due_date
  let p := fixReminder now r.reminder_date r.reminder_time
  { r with due_date := due, reminder_date := p.1, reminder_time := p.2 }

/-- Left brace character. -/
def lbrace : Char := Char.ofNat 123

/-- Right brace character. -/
def rbrace : Char := Char.ofNat 125

/-- Left bracket character. -/
def lbrack : Char := Char.ofNat 91

/-- Right bracket character. -/
def rbrack : Char := Char.ofNat 93

/-- Double-quote character. -/
def qm : Char := Char.ofNat 34

/-- Single-quote character. -/
def sqChar : Char := Char.ofNat 39

/-- Backslash character. -/
def bsl : Char := Char.ofNat 92

/-- Backtick character. -/
def btick : Char := Char.ofNat 96

/-- Newline character. -/
def nlChar : Char := Char.ofNat 10

/-- Tab character. -/
def tabChar : Char := Char.ofNat 9

/-- Carriage-return character. -/
def crChar : Char := Char.ofNat 13

/-- The JSON value universe as produced by Python `json.loads`.  Number
literals — integral, fractional, and exponent forms — are modelled exactly
in scientific form: `num m e` denotes `m * 10 ^ e`; integral literals carry
`e = 0` (mirroring Python's `int`), fractional and exponent literals carry
their decimal scale (mirroring the `float` literal exactly, without IEEE
rounding — the pipeline only stores such values, it never does float
arithmetic on them).  Outside the embedded domain, and mapped to no parse,
are exactly: the IEEE specials `NaN`, `Infinity`, `-Infinity` (which
Python's default `parse_constant` admits but which no exact decimal
denotes), and `\u` escapes denoting lone surrogates (which Python keeps in
its `str` but which no Lean `Char` can carry). -/
inductive Json where
  | null
  | bool (b : Bool)
  | num (mantissa : Int) (exp10 : Int)
  | str (s : String)
  | arr (elems : List Json)
  | obj (members : List (String × Json))

/-- JSON whitespace (`json.decoder` skips exactly blank, tab, newline,
carriage return). -/
def isJsonWs (c : Char) : Bool :=
  c = ' ' || c = tabChar || c = nlChar || c = crChar

/-- Value of a hexadecimal digit character (either case), as accepted by
the `\uXXXX` escape. -/
def hexVal (c : Char) : Option Nat :=
  if c.isDigit then some (dval c)
  else if 'a' ≤ c ∧ c ≤ 'f' then some (c.toNat - 87)
  else if 'A' ≤ c ∧ c ≤ 'F' then some (c.toNat - 55)
  else none

/-- Body of a JSON string after the opening quote: plain characters above
the control range and the full escape set of `json.loads` — `\"`, `\\`,
`\/`, `\n`, `\t`, `\r`, `\b`, `\f`, and `\uXXXX` with a high surrogate
combining with a following `\uXXXX` low surrogate into one code point.  A
`\u` escape denoting a lone surrogate encodes a Python `str` outside Lean's
`Char` domain and is outside the embedded domain. -/
def pStringGo : List Char → List Char → Option (String × List Char)
  | _, [] => none
  | acc, c :: rest =>
    if c = qm then some (String.mk acc.reverse, rest)
    else if c = bsl then
      match rest with
      | [] => none
      | e :: rest2 =>
        if e = qm then pStringGo (qm :: acc) rest2
        else if e = bsl then pStringGo (bsl :: acc) rest2
        else if e = '/' then pStringGo ('/' :: acc) rest2
        else if e = 'n' then pStringGo (nlChar :: acc) rest2
        else if e = 't' then pStringGo (tabChar :: acc) rest2
        else if e = 'r' then pStringGo (crChar :: acc) rest2
        else if e = 'b' then pStringGo (Char.ofNat 8 :: acc) rest2
        else if e = 'f' then pStringGo (Char.ofNat 12 :: acc) rest2
        else if e = 'u' then
          match rest2 with
          | h1 :: h2 :: h3 :: h4 :: rest3 =>
            match hexVal h1, hexVal h2, hexVal h3, hexVal h4 with
            | some a, some b, some c2, some d2 =>
              let code := 4096 * a + 256 * b + 16 * c2 + d2
              if 55296 ≤ code ∧ code ≤ 56319 then
                match rest3 with
                | b2 :: u2 :: g1 :: g2 :: g3 :: g4 :: rest4 =>
                  if b2 = bsl ∧ u2 = 'u' then
                    match hexVal g1, hexVal g2, hexVal g3, hexVal g4 with
                    | some a2, some b3, some c3, some d3 =>
                      let low := 4096 * a2 + 256 * b3 + 16 * c3 + d3
                      if 56320 ≤ low ∧ low ≤ 57343 then
                        pStringGo
                          (Char.ofNat (65536 + 1024 * (code - 55296) + (low - 56320))
                            :: acc) rest4
                      else none
                    | _, _, _, _ => none
                  else none
                | _ => none
              else if 56320 ≤ code ∧ code ≤ 57343 then none
              else pStringGo (Char.ofNat code :: acc) rest3
            | _, _, _, _ => none
          | _ => none
        else none
    else if c.toNat < 32 then none
    else pStringGo (c :: acc) rest

/-- Accumulate decimal digits onto `a`. -/
def digitsVal (a : Nat) : List Char → Nat
  | [] => a
  | c :: rest => digitsVal (10 * a + dval c) rest

/-- The integer part `0|[1-9]\d*` of a JSON number: `0`, or a nonzero digit
followed by digits (leading zeros are not absorbed, as in the JSON
grammar). -/
def pNumNat : List Char → Option (Nat × List Char)
  | c :: rest =>
    if c = '0' then some (0, rest)
    else if c.isDigit then
      some (digitsVal (dval c) (rest.takeWhile Char.isDigit), rest.dropWhile Char.isDigit)
    else none
  | [] => none

/-- Exponent digits after an optional sign: on a digit, adjust the decimal
exponent by the digit run's value and consume it; otherwise the exponent
group fails to match and the token ends at `orig` (the position of the
`e`). -/
def pExpDigits (m e : Int) (neg : Bool) (cs orig : List Char) :
    (Int × Int) × List Char :=
  match cs with
  | d :: rest =>
    if d.isDigit then
      let n := digitsVal (dval d) (rest.takeWhile Char.isDigit)
      ((m, if neg then e - (n : Int) else e + (n : Int)),
       rest.dropWhile Char.isDigit)
    else ((m, e), orig)
  | [] => ((m, e), orig)

/-- The optional exponent group `([eE][-+]?\d+)?` of the JSON number
grammar; when it does not match, the `e`/`E` is left unconsumed. -/
def pExpTail (m e : Int) (cs : List Char) : (Int × Int) × List Char :=
  match cs with
  | c :: rest =>
    if c = 'e' ∨ c = 'E' then
      match rest with
      | s :: rest2 =>
        if s = '+' then pExpDigits m e false rest2 cs
        else if s = '-' then pExpDigits m e true rest2 cs
        else pExpDigits m e false rest cs
      | [] => ((m, e), cs)
    else ((m, e), cs)
  | [] => ((m, e), cs)

/-- The optional fraction group `(\.\d+)?` of the JSON number grammar,
followed by the exponent group: the fraction digits are absorbed into the
mantissa and the decimal exponent decreased by their count; a dot not
followed by a digit is left unconsumed. -/
def pFracTail (m : Int) (cs : List Char) : (Int × Int) × List Char :=
  match cs with
  | c :: d :: rest =>
    if c = '.' ∧ d.isDigit then
      let ds := rest.takeWhile Char.isDigit
      let k := ds.length + 1
      pExpTail (m * (10 : Int) ^ k + (digitsVal (dval d) ds : Int)) (-(k : Int))
        (rest.dropWhile Char.isDigit)
    else pExpTail m 0 cs
  | _ => pExpTail m 0 cs

/-- A JSON number per the grammar `-?(0|[1-9]\d*)(\.\d+)?([eE][-+]?\d+)?`
used by `json.loads`, in exact scientific form (mantissa and decimal
exponent). -/
def pNum : List Char → Option ((Int × Int) × List Char)
  | [] => none
  | c :: rest =>
    if c = '-' then
      match pNumNat rest with
      | some (n, r) =>
        let p := pFracTail (n : Int) r
        some ((-p.1.1, p.1.2), p.2)
      | none => none
    else
      match pNumNat (c :: rest) with
      | some (n, r) =>
        let p := pFracTail (n : Int) r
        some (p.1, p.2)
      | none => none

mutual

/-- JSON value parser (fueled; the fuel passed by `json_loads` always
suffices for its input). -/
def pVal : Nat → List Char → Option (Json × List Char)
  | 0, _ => none
  | fuel + 1, cs =>
    let cs1 := cs.dropWhile isJsonWs
    match cs1 with
    | [] => none
    | c :: rest =>
      if c = lbrace then
        let cs2 := rest.dropWhile isJsonWs
        match cs2 with
        | d :: rest2 => if d = rbrace then some (Json.obj [], rest2) else pMembers fuel cs2 []
        | [] => none
      else if c = lbrack then
        let cs2 := rest.dropWhile isJsonWs
        match cs2 with
        | d :: rest2 => if d = rbrack then some (Json.arr [], rest2) else pElems fuel cs2 []
        | [] => none
      else if c = qm then
        match pStringGo [] rest with
        | some (s, r) => some (Json.str s, r)
        | none => none
      else if c = 't' then
        match cs1 with
        | 't' :: 'r' :: 'u' :: 'e' :: r => some (Json.bool true, r)
        | _ => none
      else if c = 'f' then
        match cs1 with
        | 'f' :: 'a' :: 'l' :: 's' :: 'e' :: r => some (Json.bool false, r)
        | _ => none
      else if c = 'n' then
        match cs1 with
        | 'n' :: 'u' :: 'l' :: 'l' :: r => some (Json.null, r)
        | _ => none
      else
        match pNum cs1 with
        | some (p, r) => some (Json.num p.1 p.2, r)
        | none => none

/-- Members of a JSON object, positioned at the start of a key. -/
def pMembers : Nat → List Char → List (String × Json) → Option (Json × List Char)
  | 0, _, _ => none
  | fuel + 1, cs, acc =>
    match cs with
    | [] => none
    | c :: rest =>
      if c = qm then
        match pStringGo [] rest with
        | some (k, r1) =>
          match r1.dropWhile isJsonWs with
          | d :: r2 =>
            if d = ':' then
              match pVal fuel r2 with
              | some (v, r3) =>
                match r3.dropWhile isJsonWs with
                | e :: r4 =>
                  if e = ',' then pMembers fuel (r4.dropWhile isJsonWs) (acc ++ [(k, v)])
                  else if e = rbrace then some (Json.obj (acc ++ [(k, v)]), r4)
                  else none
                | [] => none
              | none => none
            else none
          | [] => none
        | none => none
      else none

/-- Elements of a JSON array, positioned at the start of a value. -/
def pElems : Nat → List Char → List Json → Option (Json × List Char)
  | 0, _, _ => none
  | fuel + 1, cs, acc =>
    match pVal fuel cs with
    | some (v, r1) =>
      match r1.dropWhile isJsonWs with
      | e :: r2 =>
        if e = ',' then pElems fuel r2 (acc ++ [v])
        else if e = rbrack then some (Json.arr (acc ++ [v]), r2)
        else none
      | [] => none
    | none => none

end

/-- `json.loads`: parse one value, allowing surrounding whitespace only. -/
def json_loads (s : String) : Option Json :=
  match pVal (2 * s.data.length + 2) s.data with
  | some (v, rest) => if (rest.dropWhile isJsonWs).isEmpty then some v else none
  | none => none

/-- Python `str.strip()` (ASCII whitespace). -/
def pyStripChars (cs : List Char) : List Char :=
  ((cs.dropWhile isReWs).reverse.dropWhile isReWs).reverse

/-- Whether the regex `\n?``` + backtick fence + `\s*$` matches at this
position and extends to the end of the string (the greedy `\s*` consumes
every remaining character, so a match removes the whole suffix). -/
def fenceMatchesAt (cs : List Char) : Bool :=
  match cs with
  | c :: a :: b :: c2 :: r =>
    if c = nlChar then (a = btick && b = btick && c2 = btick) && r.all isReWs
    else (c = btick && a = btick && b = btick) && (c2 :: r).all isReWs
  | [c, a, b] => c = btick && a = btick && b = btick
  | _ => false

/-- `re.sub(r'\n?```\s*$', '', s)`: delete from the leftmost position where
the trailing-fence pattern matches through the end. -/
def stripTrailingFence : List Char → List Char
  | [] => []
  | c :: rest =>
    if fenceMatchesAt (c :: rest) then [] else c :: stripTrailingFence rest

/-- `re.sub(r'^```(?:json)?\s*\n?', '', s)` on a string known to start with
the fence: drop the three backticks, an optional `json`, then any leading
whitespace. -/
def stripLeadingFence (cs : List Char) : List Char :=
  let l1 := cs.drop 3
  let l2 := if l1.take 4 = ['j', 's', 'o', 'n'] then l1.drop 4 else l1
  l2.dropWhile isReWs

/-- The fence-cleaning prologue of `_robust_json_parse` (`ai_service.py`
lines 67-71): strip, then if the text starts with a backtick fence remove
the leading and trailing fence markers. -/
def stripFences (s : String) : String :=
  let c := pyStripChars s.data
  match c with
  | a :: b :: c2 :: _ =>
    if a = btick && b = btick && c2 = btick then
      String.mk (stripTrailingFence (stripLeadingFence c))
    else String.mk c
  | _ => String.mk c

/-- Split at the first brace character. -/
def spanNonBrace (cs : List Char) : List Char × List Char :=
  (cs.takeWhile (fun c => !(c = lbrace || c = rbrace)),
   cs.dropWhile (fun c => !(c = lbrace || c = rbrace)))

/-- The `(?:\{[^{}]*\}[^{}]*)*\}` tail of the brace regex of
`_robust_json_parse` (`ai_service.py` line 80), positioned after the opening
brace and its following brace-free run: any number of one-level groups, then
the closing brace.  Backtracking cannot rescue a failed attempt because every
rewound position holds an opening brace where the final `\}` would be
required, so this deterministic reading is the regex's. -/
def innerGroups : Nat → List Char → Option (List Char)
  | 0, _ => none
  | fuel + 1, cs =>
    match cs with
    | [] => none
    | c :: rest =>
      if c = rbrace then some [rbrace]
      else if c = lbrace then
        let p := spanNonBrace rest
        match p.2 with
        | d :: rest2 =>
          if d = rbrace then
            let q := spanNonBrace rest2
            match innerGroups fuel q.2 with
            | some t => some (lbrace :: p.1 ++ rbrace :: q.1 ++ t)
            | none => none
          else none
        | [] => none
      else none

/-- Attempt of the brace regex `\{[^{}]*(?:\{[^{}]*\}[^{}]*)*\}` anchored at
this position, returning the matched substring. -/
def tryBraceMatch (cs : List Char) : Option (List Char) :=
  match cs with
  | c :: rest =>
    if c = lbrace then
      let p := spanNonBrace rest
      match innerGroups (p.2.length + 1) p.2 with
      | some t => some (lbrace :: p.1 ++ t)
      | none => none
    else none
  | [] => none

/-- `re.search` of the brace regex: leftmost attempt position that matches
wins. -/
def regexSearchBrace : List Char → Option (List Char)
  | [] => none
  | c :: rest =>
    match tryBraceMatch (c :: rest) with
    | some m => some m
    | none => regexSearchBrace rest

/-- `content_cleaned.replace("'", '"')`. -/
def pyReplaceQuotes (s : String) : String :=
  String.mk (s.data.map (fun c => if c = sqChar then qm else c))

/-- `_robust_json_parse` of `ai_service.py` (lines 62-97): strip fences,
attempt a direct parse, then parse the first match of the brace regex, then
retry after substituting double quotes for single quotes; `None` when all
fail. -/
def robust_json_parse (content : String) : Option Json :=
  let c := stripFences content
  match json_loads c with
  | some v => some v
  | none =>
    match regexSearchBrace c.data with
    | some m =>
      match json_loads (String.mk m) with
      | some v => some v
      | none => json_loads (pyReplaceQuotes c)
    | none => json_loads (pyReplaceQuotes c)

/-- Modelled from the spec (§4.6 strategy (2) as the spec states it, for
comparison with the implementation): the first balanced brace-delimited
substring of the text — from the leftmost opening brace that has a matching
closing brace, at arbitrary nesting depth, through that matching brace. -/
def balAux : List Char → Nat → List Char → Option (List Char)
  | [], _, _ => none
  | c :: rest, depth, acc =>
    if c = lbrace then balAux rest (depth + 1) (c :: acc)
    else if c = rbrace then
      if depth = 1 then some (c :: acc).reverse
      else if depth = 0 then none
      else balAux rest (depth - 1) (c :: acc)
    else balAux rest depth (c :: acc)

/-- Modelled from the spec: leftmost balanced brace-delimited substring. -/
def specFirstBalanced : List Char → Option (List Char)
  | [] => none
  | c :: rest =>
    if c = lbrace then
      match balAux rest 1 [c] with
      | some m => some m
      | none => specFirstBalanced rest
    else specFirstBalanced rest

/-- Modelled from the spec: the object parsed from the first balanced
brace-delimited substring. -/
def specFirstBalancedJsonParse (s : String) : Option Json :=
  match specFirstBalanced s.data with
  | some m => json_loads (String.mk m)
  | none => none

/-- Whether a key has a binding in a JSON object. -/
def jsonHasKey (k : String) : Json → Bool
  | Json.obj kvs => kvs.any (fun p => p.1 == k)
  | _ => false

/-- Python truthiness of a `json.loads` result (`if result:`). -/
def jsonTruthy : Json → Bool
  | Json.null => false
  | Json.bool b => b
  | Json.num m e => decide (m ≠ 0)
  | Json.str s => !s.data.isEmpty
  | Json.arr l => !l.isEmpty
  | Json.obj l => !l.isEmpty

/-- Lookup in a parsed JSON object; later duplicate keys win, as in the
dict `json.loads` builds. -/
def jsonLookup (k : String) (l : List (String × Json)) : Option Json :=
  (l.reverse.find? (fun p => p.1 == k)).map (fun p => p.2)

/-- A schema field read from a parsed object: missing key, `null`, or a
string.  An object carrying a non-string value at a string-typed schema key
lies outside the embedded draft domain and is rejected. -/
def jfieldOfJson : Option Json → Option JField
  | none => some JField.absent
  | some Json.null => some JField.null
  | some (Json.str s) => some (JField.str s)
  | some _ => none

/-- The `confidence` field read from a parsed object (numeric or missing),
as the denoted rational value. -/
def confOfJson : Option Json → Option (Option ℚ)
  | none => some none
  | some (Json.num m e) => some (some ((m : ℚ) * (10 : ℚ) ^ e))
  | some _ => none

/-- Projection of a truthy `json.loads` result onto the draft dictionary
(non-objects and objects outside the embedded domain map to `none`, which the
retry loop treats as a failed attempt, as Python treats the `AttributeError`
they would raise inside the `try`). -/
def jsonToDraft : Json → Option Draft
  | Json.obj kvs => do
    let action ← jfieldOfJson (jsonLookup "action" kvs)
    let title ← jfieldOfJson (jsonLookup "title" kvs)
    let description ← jfieldOfJson (jsonLookup "description" kvs)
    let due_date ← jfieldOfJson (jsonLookup "due_date" kvs)
    let reminder_date ← jfieldOfJson (jsonLookup "reminder_date" kvs)
    let reminder_time ← jfieldOfJson (jsonLookup "reminder_time" kvs)
    let search_query ← jfieldOfJson (jsonLookup "search_query" kvs)
    let todo_id ← jfieldOfJson (jsonLookup "todo_id" kvs)
    let target_description ← jfieldOfJson (jsonLookup "target_description" kvs)
    let modification_intent ← jfieldOfJson (jsonLookup "modification_intent" kvs)
    let reasoning ← jfieldOfJson (jsonLookup "reasoning" kvs)
    let confidence ← confOfJson (jsonLookup "confidence" kvs)
    pure { action := action, title := title, description := description
         , due_date := due_date, reminder_date := reminder_date
         , reminder_time := reminder_time, search_query := search_query
         , todo_id := todo_id, target_description := target_description
         , modification_intent := modification_intent, reasoning := reasoning
         , confidence := confidence }
  | _ => none

/-- Outcome of one attempt of the extraction call in `_analyze_intent`:
the transport raised, or it returned response text. -/
inductive AnalyzeOutcome where
  | err
  | content (c : String)

/-- One iteration of the retry loop of `_analyze_intent` (`ai_service.py`
lines 223-247): a raised call, an unparsable or falsy response, or a truthy
non-dict response all leave the loop empty-handed; a truthy parsed dict is
date-repaired and returned. -/
def analyzeStep (now : DateTime) : AnalyzeOutcome → Option Draft
  | AnalyzeOutcome.err => none
  | AnalyzeOutcome.content c =>
    match robust_json_parse c with
    | none => none
    | some v =>
      if jsonTruthy v then
        match jsonToDraft v with
        | some d => some (validate_and_fix_dates now d)
        | none => none
      else none

/-- `_analyze_intent`'s fallback draft (`ai_service.py` lines 250-254):
`{"action": "CREATE", "title": text[:30], "confidence": 0.0}`. -/
def fallbackDraft (text : String) : Draft :=
  { emptyDraft with
      action := JField.str "CREATE"
    , title := JField.str (text.take 30)
    , confidence := some 0 }

/-- `_analyze_intent(text)` of `ai_service.py` (lines 187-254): up to
`max_retries = 2` retries after the initial attempt, i.e. three attempts,
then the deterministic fallback.  The function is total: no failure
propagates to the caller. -/
def analyze_intent (now : DateTime) (text : String)
    (attempts : Fin 3 → AnalyzeOutcome) : Draft :=
  match analyzeStep now (attempts 0) with
  | some d => d
  | none =>
    match analyzeStep now (attempts 1) with
    | some d => d
    | none =>
      match analyzeStep now (attempts 2) with
      | some d => d
      | none => fallbackDraft text

/-- Outcome of the single matching call in `_resolve_task_id_and_details`:
the transport raised; the response parsed to `None` or to a falsy dict; or
it parsed to a truthy dict (projected onto the draft schema). -/
inductive ResolveOutcome where
  | err
  | parsedNone
  | parsedSome (upd : Draft)

/-- `_resolve_task_id_and_details` of `ai_service.py` (lines 256-326),
after the candidate prompt has been issued: on a truthy parsed result the
draft is `initial_analysis.copy()` updated with the result and then
date-repaired; on any failure the initial analysis is returned unchanged. -/
def resolve_task_id_and_details (now : DateTime) (initial : Draft)
    (outcome : ResolveOutcome) : Draft :=
  match outcome with
  | ResolveOutcome.parsedSome upd => validate_and_fix_dates now (dictUpdate initial upd)
  | _ => initial

/-- Modelled from the spec: `calculate_relative_time` is imported from
`utils.datetime_helper` by `ai/intent.py` and `ai/decompose.py`, but the
`datetime_helper.py` in the sources does not define it.  Per the spec
(§4.1): `compute(now, day_offset, hour, minute) -> (date_str, time_str)`
returns the date `now.date() + day_offset` and the clock time
`hour:minute`, where `hour` is the absolute hour-of-day (0-23) on the
target date, never a relative offset, independent of `now`'s own
time-of-day. -/
def calculate_relative_time (now : DateTime) (days hours minutes : Nat) :
    String × String :=
  (formatDate (addDays now.date days), formatTime (60 * hours + minutes))

/-- A subtask dict of the decomposition payload (`ai/function_tools.py`
`get_decompose_tools` schema). -/
structure Subtask where
  title : String
  description : Option String
  priority : Option Nat
  due_in_days : Option Nat
  due_date : Option String
deriving DecidableEq, Repr

/-- The accumulation loop of `decompose_task` (`ai/decompose.py` lines
89-103): `accumulated_days` sums each subtask's `due_in_days`; a subtask with
an offset receives the absolute date `now + accumulated_days` (computed at
hour 9 when the accumulator is positive, at the bare reference date
otherwise); subtasks without an offset are passed through. -/
def assignSubtaskDates (now : DateTime) : Nat → List Subtask → List Subtask
  | _, [] => []
  | acc, s :: rest =>
    match s.due_in_days with
    | some d =>
      let acc2 := acc + d
      let dateStr :=
        if 0 < acc2 then (calculate_relative_time now acc2 9 0).1
        else (calculate_relative_time now 0 0 0).1
      { s with due_date := some dateStr } :: assignSubtaskDates now acc2 rest
    | none => s :: assignSubtaskDates now acc rest

/-- The structured payload of the `validate_time` tool call
(`ai/function_tools.py` `get_time_validation_tools`). -/
structure TimeValidationArgs where
  reminder_in_days : Option Int
deriving Repr

/-- Outcome of the validation call in `validate_reminder_time`: the call
raised, or it returned a message with or without a tool call carrying the
payload. -/
inductive TimeValidationOutcome where
  | err
  | ok (toolCall : Option TimeValidationArgs)

/-- `validate_reminder_time` of `ai/time_validator.py` (lines 30-96): a
nonzero `reminder_in_days` is returned immediately, before any request is
built; otherwise the corrected value is taken from the tool-call payload
(defaulting to the input), and any raised call leaves the input value in
place. -/
def validate_reminder_time (outcome : TimeValidationOutcome)
    (current_time : String) (reminder_in_days : Int)
    (reminder_in_hours reminder_in_minutes : Nat) : Int :=
  if reminder_in_days ≠ 0 then reminder_in_days
  else
    match outcome with
    | TimeValidationOutcome.ok (some args) => args.reminder_in_days.getD reminder_in_days
    | _ => reminder_in_days

/-- A reference instant used by concrete instances: 2026-03-10, 10:00. -/
def nowMorning : DateTime := ⟨⟨2026, 3, 10⟩, 600⟩

/-- A reference instant close to midnight: 2026-03-10, 23:30. -/
def nowLate : DateTime := ⟨⟨2026, 3, 10⟩, 1410⟩

/-- Concrete initial analysis of an UPDATE, carrying a due date. -/
def initialC1 : Draft :=
  { emptyDraft with
      action := JField.str "UPDATE"
    , title := JField.str "meeting"
    , due_date := JField.str "2026-04-01"
    , target_description := JField.str "meeting" }

/-- Concrete second-call result that returns `due_date` explicitly as null
(as the prompt instructs for fields the user did not mention). -/
def updC1 : Draft :=
  { emptyDraft with
      action := JField.str "UPDATE"
    , todo_id := JField.str "task-17"
    , due_date := JField.null
    , reminder_time := JField.str "14:00"
    , confidence := some (9 / 10) }

/-- Concrete subtask list whose model-returned day offsets are `[2, 1, 3]`. -/
def subsC5 : List Subtask :=
  [ { title := "book venue", description := none, priority := some 1
    , due_in_days := some 2, due_date := none }
  , { title := "invite speakers", description := none, priority := some 2
    , due_in_days := some 1, due_date := none }
  , { title := "send agenda", description := none, priority := some 3
    , due_in_days := some 3, due_date := none } ]

/-- Raw model text whose first balanced brace-delimited substring is a valid
JSON object nested three levels deep, preceded by junk that defeats the
direct parse. -/
def exC9 : String :=
  String.mk ['x', ' ', lbrace, qm, 'a', qm, ':', lbrace, qm, 'b', qm, ':',
             lbrace, qm, 'c', qm, ':', '1', rbrace, rbrace, rbrace]

/-- Raw model text with junk before a depth-one object (for the witness of
the amended C9 statement). -/
def exC9w : String :=
  String.mk ['x', ' ', lbrace, qm, 'a', qm, ':', '1', rbrace]

/-- Raw model text with junk before a depth-one object whose value is the
fractional literal `0.5` (exercising the number grammar of the embedded
`json.loads` on the kind of payload the pipeline actually carries, such as
confidence values). -/
def exC9f : String :=
  String.mk ['x', ' ', lbrace, qm, 'a', qm, ':', ' ', '0', '.', '5', rbrace]

/-- Concrete draft with a past due date and a past reminder instant
(relative to `nowMorning`). -/
def rC3 : Draft :=
  { emptyDraft with
      due_date := JField.str "2026-03-01"
    , reminder_date := JField.str "2026-03-09"
    , reminder_time := JField.str "08:00" }

/-- Concrete draft with a well-formed future reminder date but a malformed
reminder time. -/
def rC6 : Draft :=
  { emptyDraft with
      reminder_date := JField.str "2026-05-01"
    , reminder_time := JField.str "99:99" }

/-- Concrete draft with a past reminder date and a malformed reminder time
(drives the conservative repair branch). -/
def rC7 : Draft :=
  { emptyDraft with
      reminder_date := JField.str "2026-03-09"
    , reminder_time := JField.str "99:99" }

/-- Extensionality for drafts. -/
@[ext] theorem Draft.ext (a b : Draft)
    (h1 : a.action = b.action) (h2 : a.title = b.title)
    (h3 : a.description = b.description) (h4 : a.due_date = b.due_date)
    (h5 : a.reminder_date = b.reminder_date) (h6 : a.reminder_time = b.reminder_time)
    (h7 : a.search_query = b.search_query) (h8 : a.todo_id = b.todo_id)
    (h9 : a.target_description = b.target_description)
    (h10 : a.modification_intent = b.modification_intent)
    (h11 : a.reasoning = b.reasoning) (h12 : a.confidence = b.confidence) : a = b := by
  cases a; cases b; congr

/-- The repaired draft's due date is the due-date rule applied to the
original field. -/
theorem validate_due_date (now : DateTime) (r : Draft) :
    (validate_and_fix_dates now r).due_date = fixDue now r.due_date := rfl

/-- The repaired draft's reminder date is the first component of the
reminder rule. -/
theorem validate_reminder_date (now : DateTime) (r : Draft) :
    (validate_and_fix_dates now r).reminder_date =
      (fixReminder now r.reminder_date r.reminder_time).1 := rfl

/-- The repaired draft's reminder time is the second component of the
reminder rule. -/
theorem validate_reminder_time_field (now : DateTime) (r : Draft) :
    (validate_and_fix_dates now r).reminder_time =
      (fixReminder now r.reminder_date r.reminder_time).2 := rfl

/-- C10: `validate_reminder_time` can change `reminder_in_days` only when
the input is 0 and the second model call succeeds with a tool call: any
nonzero input is returned unchanged whatever the call would do (the early
return fires before a request is built), a raised call leaves the input
unchanged, and a response without a tool call leaves the input unchanged. -/
theorem c10_time_validator_identity (ct : String) (days : Int) (h m : Nat) :
    (days ≠ 0 → ∀ o, validate_reminder_time o ct days h m = days) ∧
    (∀ hrs mins, validate_reminder_time TimeValidationOutcome.err ct days hrs mins = days) ∧
    (validate_reminder_time (TimeValidationOutcome.ok none) ct days h m = days) := by
  refine ⟨?_, ?_, ?_⟩
  · intro hd o
    unfold validate_reminder_time
    rw [if_pos hd]
  · intro hrs mins
    unfold validate_reminder_time
    split
    · rfl
    · rfl
  · unfold validate_reminder_time
    split
    · rfl
    · rfl

/-- Witness for C10 at concrete inputs. -/
theorem c10_time_validator_identity_witness :
    validate_reminder_time (TimeValidationOutcome.ok (some ⟨some 1⟩))
        "2026-03-10 15:00" 5 16 0 = 5 ∧
    validate_reminder_time TimeValidationOutcome.err "2026-03-10 15:00" 0 16 30 = 0 :=
  ⟨(c10_time_validator_identity "2026-03-10 15:00" 5 16 0).1 (by decide)
      (TimeValidationOutcome.ok (some ⟨some 1⟩)),
   (c10_time_validator_identity "2026-03-10 15:00" 0 16 30).2.1 16 30⟩

/-- C2: when the structured extraction call fails on all three attempts
(the initial attempt plus `max_retries = 2`), `_analyze_intent` returns the
deterministic fallback draft — action CREATE, title the first 30 characters
of the input text, confidence 0 — and, being a total function, never raises
to its caller. -/
theorem c2_extraction_fallback (now : DateTime) (text : String)
    (attempts : Fin 3 → AnalyzeOutcome)
    (h : ∀ i, attempts i = AnalyzeOutcome.err) :
    analyze_intent now text attempts = fallbackDraft text ∧
    (analyze_intent now text attempts).action = JField.str "CREATE" ∧
    (analyze_intent now text attempts).title = JField.str (text.take 30) ∧
    (analyze_intent now text attempts).confidence = some 0 := by
  have e : ∀ i, analyzeStep now (attempts i) = none := by
    intro i; rw [h i]; rfl
  have hmain : analyze_intent now text attempts = fallbackDraft text := by
    unfold analyze_intent
    rw [e 0, e 1, e 2]
  exact ⟨hmain, by rw [hmain]; rfl, by rw [hmain]; rfl, by rw [hmain]; rfl⟩

/-- Witness for C2: three raised calls on a concrete input text. -/
theorem c2_extraction_fallback_witness :
    analyze_intent nowMorning "buy oat milk and coffee beans tomorrow morning"
        (fun _ => AnalyzeOutcome.err) =
      fallbackDraft "buy oat milk and coffee beans tomorrow morning" :=
  (c2_extraction_fallback nowMorning "buy oat milk and coffee beans tomorrow morning"
      (fun _ => AnalyzeOutcome.err) (fun _ => rfl)).1

/-- C1 counterexample: a second-call result that explicitly returns
`due_date` as null does not keep the initial draft's value in the merged
result — `dict.update` overwrites the field with `None`, so the merged
draft's `due_date` is null, not the pre-existing `"2026-04-01"`. -/
theorem c1_counterexample :
    updC1.due_date = JField.null ∧
    initialC1.due_date = JField.str "2026-04-01" ∧
    (resolve_task_id_and_details nowMorning initialC1
        (ResolveOutcome.parsedSome updC1)).due_date = JField.null ∧
    (resolve_task_id_and_details nowMorning initialC1
        (ResolveOutcome.parsedSome updC1)).due_date ≠ initialC1.due_date := by
  refine ⟨rfl, rfl, by decide, by decide⟩

/-- C1 (amended): in the merged result of `_resolve_task_id_and_details`,
every field present in the second-call result — null included — overwrites
the draft field; only a field absent from the result keeps the draft's
value.  Null fields therefore become null on the merged draft rather than
keeping the pre-existing value (unrelated task data survives because
downstream consumers skip falsy fields, not because of the merge).  On a
failed or payload-less second call the initial analysis is returned
unchanged. -/
theorem c1_merge_amended (now : DateTime) (initial upd : Draft) :
    resolve_task_id_and_details now initial (ResolveOutcome.parsedSome upd) =
      validate_and_fix_dates now (dictUpdate initial upd) ∧
    (dictUpdate initial upd).due_date =
      (if upd.due_date = JField.absent then initial.due_date else upd.due_date) ∧
    (dictUpdate initial upd).title =
      (if upd.title = JField.absent then initial.title else upd.title) ∧
    (dictUpdate initial upd).reminder_date =
      (if upd.reminder_date = JField.absent then initial.reminder_date else upd.reminder_date) ∧
    (dictUpdate initial upd).reminder_time =
      (if upd.reminder_time = JField.absent then initial.reminder_time else upd.reminder_time) ∧
    resolve_task_id_and_details now initial ResolveOutcome.err = initial ∧
    resolve_task_id_and_details now initial ResolveOutcome.parsedNone = initial := by
  refine ⟨rfl, ?_, ?_, ?_, ?_, rfl, rfl⟩
  · cases hf : upd.due_date <;> simp [dictUpdate, dictUpdateField, hf]
  · cases hf : upd.title <;> simp [dictUpdate, dictUpdateField, hf]
  · cases hf : upd.reminder_date <;> simp [dictUpdate, dictUpdateField, hf]
  · cases hf : upd.reminder_time <;> simp [dictUpdate, dictUpdateField, hf]

/-- Length is preserved by the subtask date assignment loop. -/
theorem assignSubtaskDates_length (now : DateTime) (acc : Nat) (subs : List Subtask) :
    (assignSubtaskDates now acc subs).length = subs.length := by
  induction subs generalizing acc with
  | nil => rfl
  | cons s rest ih =>
    cases h : s.due_in_days <;> simp [assignSubtaskDates, h, ih]

/-- The date string written by the loop at accumulator value `n` is the
reference date advanced by `n` days, in both branches of the positivity
test. -/
theorem assignSubtaskDates_dateStr (now : DateTime) (n : Nat) :
    (if 0 < n then (calculate_relative_time now n 9 0).1
     else (calculate_relative_time now 0 0 0).1) =
      formatDate (addDays now.date n) := by
  by_cases hn : 0 < n
  · rw [if_pos hn]; rfl
  · rw [if_neg hn]
    have : n = 0 := by omega
    subst this
    rfl

/-- Unfolding of the loop on a subtask that carries an offset. -/
theorem assignSubtaskDates_cons_some (now : DateTime) (acc : Nat) (s : Subtask)
    (rest : List Subtask) (o : Nat) (h : s.due_in_days = some o) :
    assignSubtaskDates now acc (s :: rest) =
      { s with due_date := some (formatDate (addDays now.date (acc + o))) } ::
        assignSubtaskDates now (acc + o) rest := by
  have h0 : assignSubtaskDates now acc (s :: rest) =
      { s with due_date := some (if 0 < acc + o then (calculate_relative_time now (acc + o) 9 0).1
          else (calculate_relative_time now 0 0 0).1) } ::
        assignSubtaskDates now (acc + o) rest := by
    rw [assignSubtaskDates, h]
  rw [h0, assignSubtaskDates_dateStr]

/-- Generalized accumulation invariant of the decomposition loop: starting
from accumulator `acc`, subtask `i` receives the absolute date
`now + (acc + offsets[0..i])`. -/
theorem assignSubtaskDates_nth (now : DateTime) (subs : List Subtask)
    (offs : List Nat) (acc : Nat)
    (h : subs.map Subtask.due_in_days = offs.map some)
    (i : Nat) (hi : i < subs.length) :
    ((assignSubtaskDates now acc subs).get? i).map Subtask.due_date =
      some (some (formatDate (addDays now.date (acc + (offs.take (i + 1)).sum)))) := by
  induction subs generalizing offs acc i with
  | nil => simp at hi
  | cons s rest ih =>
    cases offs with
    | nil => simp at h
    | cons o orest =>
      simp only [List.map_cons, List.cons.injEq] at h
      obtain ⟨h1, h2⟩ := h
      rw [assignSubtaskDates_cons_some now acc s rest o h1]
      cases i with
      | zero =>
        simp [List.take, List.sum_cons]
      | succ j =>
        have hj : j < rest.length := by
          simp only [List.length_cons] at hi; omega
        have ihx := ih orest (acc + o) h2 j hj
        have harith : acc + o + (List.take (j + 1) orest).sum =
            acc + (o + (List.take (j + 1) orest).sum) := by omega
        simp only [List.get?_cons_succ, List.take, List.sum_cons]
        rw [ihx, harith]

/-- C5: for every model-returned subtask list whose day offsets are
`[o1, ..., on]` (each relative to the previous subtask), the decomposer
assigns subtask `i` the absolute due date `now + (o1 + ... + oi)` — the
offsets are accumulated, not applied independently. -/
theorem c5_decompose_accumulation (now : DateTime) (subs : List Subtask)
    (offs : List Nat) (h : subs.map Subtask.due_in_days = offs.map some)
    (i : Nat) (hi : i < subs.length) :
    ((assignSubtaskDates now 0 subs).get? i).map Subtask.due_date =
      some (some (formatDate (addDays now.date ((offs.take (i + 1)).sum)))) := by
  have := assignSubtaskDates_nth now subs offs 0 h i hi
  simpa using this

/-- Witness for C5: offsets `[2, 1, 3]` from 2026-03-10 put the third
subtask at `now + 6` days (and, evaluating, that date is 2026-03-16). -/
theorem c5_decompose_accumulation_witness :
    ((assignSubtaskDates nowMorning 0 subsC5).get? 2).map Subtask.due_date =
      some (some (formatDate (addDays nowMorning.date (([2, 1, 3].take 3).sum)))) ∧
    formatDate (addDays nowMorning.date (([2, 1, 3].take 3).sum)) = "2026-03-16" :=
  ⟨c5_decompose_accumulation nowMorning subsC5 [2, 1, 3] (by decide) 2 (by decide),
   by decide⟩

/-- `Nat.digitChar` of a digit value is a digit character. -/
theorem isDigit_digitChar (k : Nat) (h : k < 10) : (Nat.digitChar k).isDigit = true := by
  interval_cases k <;> decide

/-- `dval` inverts `Nat.digitChar` on digit values. -/
theorem dval_digitChar (k : Nat) (h : k < 10) : dval (Nat.digitChar k) = k := by
  interval_cases k <;> decide

/-- Digit characters are not whitespace. -/
theorem isReWs_digitChar (k : Nat) (h : k < 10) : isReWs (Nat.digitChar k) = false := by
  interval_cases k <;> decide

/-- A zero-padded two-digit rendering of `n ∈ [lo, hi]` is consumed by the
two-digit branch of the numeric token parser. -/
theorem parseNum2or1_pad2 (lo hi oneLo n : Nat) (rest : List Char)
    (h1 : lo ≤ n) (h2 : n ≤ hi) (h3 : n ≤ 99) :
    parseNum2or1 lo hi oneLo
        (Nat.digitChar (n / 10 % 10) :: Nat.digitChar (n % 10) :: rest) =
      some (n, rest) := by
  have ha : n / 10 % 10 < 10 := Nat.mod_lt _ (by norm_num)
  have hb : n % 10 < 10 := Nat.mod_lt _ (by norm_num)
  have hval : 10 * (n / 10 % 10) + n % 10 = n := by omega
  simp only [parseNum2or1]
  rw [isDigit_digitChar _ ha, isDigit_digitChar _ hb, dval_digitChar _ ha,
    dval_digitChar _ hb, hval]
  simp [h1, h2]

/-- Every month has at least one day. -/
theorem daysInMonth_pos (y m : Nat) : 1 ≤ daysInMonth y m := by
  unfold daysInMonth
  split_ifs <;> norm_num

/-- No month has more than 31 days. -/
theorem daysInMonth_le (y m : Nat) : daysInMonth y m ≤ 31 := by
  unfold daysInMonth
  split_ifs <;> norm_num

/-- The successor of a valid date is valid. -/
theorem validDate_nextDay (d : Date) (h : ValidDate d) : ValidDate (nextDay d) := by
  obtain ⟨h1, h2, h3, h4, h5⟩ := h
  unfold nextDay
  split_ifs with hd hm
  · exact ⟨h1, h2, h3, show 1 ≤ d.day + 1 by omega,
      show d.day + 1 ≤ daysInMonth d.year d.month by omega⟩
  · exact ⟨h1, show 1 ≤ d.month + 1 by omega, show d.month + 1 ≤ 12 by omega,
      le_refl 1, daysInMonth_pos _ _⟩
  · exact ⟨show 1 ≤ d.year + 1 by omega, le_refl 1, show (1 : Nat) ≤ 12 by norm_num,
      le_refl 1, daysInMonth_pos _ _⟩

/-- The successor never decreases the year. -/
theorem nextDay_year_ge (d : Date) : d.year ≤ (nextDay d).year := by
  unfold nextDay
  split_ifs <;> simp

/-- The successor increases the year by at most one. -/
theorem nextDay_year_le (d : Date) : (nextDay d).year ≤ d.year + 1 := by
  unfold nextDay
  split_ifs <;> simp

/-- Date order is irreflexive. -/
theorem not_dateLt_self (d : Date) : ¬ dateLt d d := by
  unfold dateLt
  omega

/-- Tomorrow is never before today. -/
theorem not_dateLt_nextDay (d : Date) : ¬ dateLt (nextDay d) d := by
  unfold nextDay dateLt
  split_ifs <;> simp

/-- Advancing a valid date any number of days stays valid. -/
theorem validDate_addDays (d : Date) (n : Nat) (h : ValidDate d) :
    ValidDate (addDays d n) := by
  induction n with
  | zero => exact h
  | succ k ih => exact validDate_nextDay _ ih

/-- Advancing a date never decreases the year. -/
theorem addDays_year_ge (d : Date) (n : Nat) : d.year ≤ (addDays d n).year := by
  induction n with
  | zero => exact le_refl _
  | succ k ih => exact le_trans ih (nextDay_year_ge _)

/-- Round trip: formatting a valid four-digit-year date and parsing it back
recovers the date. -/
theorem parse_format_date (d : Date) (hv : ValidDate d) (hy1 : 1000 ≤ d.year)
    (hy2 : d.year ≤ 9999) : parseDateChars (formatDateChars d) = some d := by
  obtain ⟨hyy, hm1, hm2, hd1, hd2⟩ := hv
  have hd31 : d.day ≤ 31 := le_trans hd2 (daysInMonth_le _ _)
  have ha1 : d.year / 1000 % 10 < 10 := Nat.mod_lt _ (by norm_num)
  have ha2 : d.year / 100 % 10 < 10 := Nat.mod_lt _ (by norm_num)
  have ha3 : d.year / 10 % 10 < 10 := Nat.mod_lt _ (by norm_num)
  have ha4 : d.year % 10 < 10 := Nat.mod_lt _ (by norm_num)
  have hyval : 1000 * (d.year / 1000 % 10) + 100 * (d.year / 100 % 10)
      + 10 * (d.year / 10 % 10) + d.year % 10 = d.year := by omega
  simp only [formatDateChars, pad4, pad2, List.cons_append, List.nil_append,
    parseDateChars]
  rw [isDigit_digitChar _ ha1, isDigit_digitChar _ ha2, isDigit_digitChar _ ha3,
    isDigit_digitChar _ ha4, dval_digitChar _ ha1, dval_digitChar _ ha2,
    dval_digitChar _ ha3, dval_digitChar _ ha4, hyval,
    parseNum2or1_pad2 1 12 1 d.month _ hm1 hm2 (by omega)]
  simp [parseNum2or1_pad2 1 31 1 d.day _ hd1 hd31 (by omega), hyy, hd2]

/-- Round trip at the `String` level. -/
theorem parseDate_formatDate (d : Date) (hv : ValidDate d) (hy1 : 1000 ≤ d.year)
    (hy2 : d.year ≤ 9999) : parseDate (formatDate d) = some d :=
  parse_format_date d hv hy1 hy2

/-- A formatted time has no leading whitespace to drop. -/
theorem dropWhile_formatTimeChars (t : Nat) :
    (formatTimeChars t).dropWhile isReWs = formatTimeChars t := by
  have h : t / 60 / 10 % 10 < 10 := Nat.mod_lt _ (by norm_num)
  simp only [formatTimeChars, pad2, List.cons_append]
  rw [List.dropWhile_cons, isReWs_digitChar _ h]
  simp

/-- Round trip: formatting a minute-of-day and parsing it back recovers the
value. -/
theorem parse_format_time (t : Nat) (h : t < 1440) :
    parseTimeChars (formatTimeChars t) = some t := by
  have hh : t / 60 ≤ 23 := by omega
  have hm : t % 60 ≤ 59 := by omega
  simp only [formatTimeChars, pad2, List.cons_append, List.nil_append,
    parseTimeChars]
  rw [parseNum2or1_pad2 0 23 0 (t / 60) _ (Nat.zero_le _) hh (by omega)]
  simp [parseNum2or1_pad2 0 59 0 (t % 60) [] (Nat.zero_le _) hm (by omega)]
  omega

/-- Round trip through the whitespace-absorbing time parser. -/
theorem parseTimeWs_formatTime (t : Nat) (h : t < 1440) :
    parseTimeWs (formatTime t) = some t := by
  unfold parseTimeWs
  have hdata : (formatTime t).data = formatTimeChars t := rfl
  rw [hdata, dropWhile_formatTimeChars, parse_format_time t h]

/-- The empty list parses to no date. -/
theorem parseDateChars_nil : parseDateChars [] = none := rfl

/-- A string that parses to a date is nonempty. -/
theorem parseDate_isEmpty_false (s : String) (d : Date) (h : parseDate s = some d) :
    s.data.isEmpty = false := by
  cases hs : s.data with
  | nil =>
    unfold parseDate at h
    rw [hs, parseDateChars_nil] at h
    exact absurd h (by simp)
  | cons a l => simp [hs]

/-- A formatted date is a nonempty string. -/
theorem formatDate_isEmpty_false (d : Date) : (formatDate d).data.isEmpty = false := by
  show (formatDateChars d).isEmpty = false
  simp [formatDateChars, pad4]

/-- C3: invariant repair postconditions.  For every draft and reference
instant `now`: if the draft's `due_date` parses but is strictly before
`now`'s date, repair replaces it with `now + 1` day in `YYYY-MM-DD` form;
and if `reminder_date` plus `reminder_time` parse to an instant less than or
equal to `now`, repair replaces both with `now + 30` minutes, split back
into a `YYYY-MM-DD` date and an `HH:MM` time. -/
theorem c3_repair_postconditions (now : DateTime) (r : Draft) :
    (∀ s d, r.due_date = JField.str s → parseDate s = some d →
      dateLt d now.date →
      (validate_and_fix_dates now r).due_date =
        JField.str (formatDate (nextDay now.date))) ∧
    (∀ s t d tm, r.reminder_date = JField.str s → r.reminder_time = JField.str t →
      parseDate s = some d → parseTimeWs t = some tm → dtLe d tm now →
      (validate_and_fix_dates now r).reminder_date =
          JField.str (formatDate (addMinutes now 30).date) ∧
        (validate_and_fix_dates now r).reminder_time =
          JField.str (formatTime (addMinutes now 30).time)) := by
  constructor
  · intro s d hs hp hlt
    rw [validate_due_date, hs]
    simp [fixDue, parseDate_isEmpty_false s d hp, hp, hlt]
  · intro s t d tm hs ht hp htm hle
    constructor
    · rw [validate_reminder_date, hs, ht]
      simp [fixReminder, parseDate_isEmpty_false s d hp, hp, reminderTimeVal,
        htm, hle]
    · rw [validate_reminder_time_field, hs, ht]
      simp [fixReminder, parseDate_isEmpty_false s d hp, hp, reminderTimeVal,
        htm, hle]

/-- Witness for C3 at 2026-03-10 10:00 on a past due date and a past
reminder instant. -/
theorem c3_repair_postconditions_witness :
    (validate_and_fix_dates nowMorning rC3).due_date =
        JField.str (formatDate (nextDay nowMorning.date)) ∧
    (validate_and_fix_dates nowMorning rC3).reminder_date =
        JField.str (formatDate (addMinutes nowMorning 30).date) ∧
    (validate_and_fix_dates nowMorning rC3).reminder_time =
        JField.str (formatTime (addMinutes nowMorning 30).time) :=
  ⟨(c3_repair_postconditions nowMorning rC3).1 "2026-03-01" ⟨2026, 3, 1⟩ rfl
      (by decide) (by decide),
   ((c3_repair_postconditions nowMorning rC3).2 "2026-03-09" "08:00" ⟨2026, 3, 9⟩
      480 rfl rfl (by decide) (by decide) (by decide)).1,
   ((c3_repair_postconditions nowMorning rC3).2 "2026-03-09" "08:00" ⟨2026, 3, 9⟩
      480 rfl rfl (by decide) (by decide) (by decide)).2⟩

/-- C6 counterexample: with a parseable future `reminder_date` and a
`reminder_time` that fails to parse, repair leaves the malformed
`reminder_time` in place instead of clearing it to absent. -/
theorem c6_counterexample :
    parseTimeWs "99:99" = none ∧
    (validate_and_fix_dates nowMorning rC6).reminder_time = JField.str "99:99" ∧
    (validate_and_fix_dates nowMorning rC6).reminder_time ≠ JField.absent ∧
    (validate_and_fix_dates nowMorning rC6).reminder_time ≠ JField.null := by
  refine ⟨by decide, by decide, by decide, by decide⟩

/-- C6 (amended): repair clears a non-empty `due_date` that fails to parse,
and a non-empty `reminder_date` that fails to parse clears both reminder
fields; but a `reminder_time` that fails to parse while `reminder_date`
parses is handled by the conservative adjustment instead, and when the
reminder date is in the future both reminder fields are left unchanged. -/
theorem c6_repair_clears_amended (now : DateTime) (r : Draft) :
    (∀ s, r.due_date = JField.str s → s.data.isEmpty = false →
      parseDate s = none → (validate_and_fix_dates now r).due_date = JField.null) ∧
    (∀ s, r.reminder_date = JField.str s → s.data.isEmpty = false →
      parseDate s = none →
      (validate_and_fix_dates now r).reminder_date = JField.null ∧
        (validate_and_fix_dates now r).reminder_time = JField.null) ∧
    (∀ s t d, r.reminder_date = JField.str s → parseDate s = some d →
      dateLt now.date d → r.reminder_time = JField.str t → parseTimeWs t = none →
      (validate_and_fix_dates now r).reminder_date = JField.str s ∧
        (validate_and_fix_dates now r).reminder_time = JField.str t) := by
  refine ⟨?_, ?_, ?_⟩
  · intro s hs hne hp
    rw [validate_due_date, hs]
    simp [fixDue, hne, hp]
  · intro s hs hne hp
    constructor
    · rw [validate_reminder_date, hs]
      simp [fixReminder, hne, hp]
    · rw [validate_reminder_time_field, hs]
      simp [fixReminder, hne, hp]
  · intro s t d hs hp hfut ht htm
    have hnlt : ¬ dateLt d now.date := by
      unfold dateLt at hfut ⊢
      omega
    have hne2 : d ≠ now.date := by
      unfold dateLt at hfut
      intro he
      rw [he] at hfut
      omega
    constructor
    · rw [validate_reminder_date, hs, ht]
      simp [fixReminder, parseDate_isEmpty_false s d hp, hp, reminderTimeVal,
        htm, hnlt, hne2]
    · rw [validate_reminder_time_field, hs, ht]
      simp [fixReminder, parseDate_isEmpty_false s d hp, hp, reminderTimeVal,
        htm, hnlt, hne2]

/-- Witness for the amended C6: an unparsable due date and an unparsable
reminder date are cleared; the malformed reminder time of `rC6` survives. -/
theorem c6_repair_clears_amended_witness :
    (validate_and_fix_dates nowMorning
        { emptyDraft with due_date := JField.str "2026-13-40" }).due_date =
      JField.null ∧
    (validate_and_fix_dates nowMorning
        { emptyDraft with reminder_date := JField.str "not-a-date" }).reminder_date =
      JField.null ∧
    (validate_and_fix_dates nowMorning rC6).reminder_time = JField.str "99:99" :=
  ⟨(c6_repair_clears_amended nowMorning
        { emptyDraft with due_date := JField.str "2026-13-40" }).1 "2026-13-40" rfl
      (by decide) (by decide),
   ((c6_repair_clears_amended nowMorning
        { emptyDraft with reminder_date := JField.str "not-a-date" }).2.1 "not-a-date"
      rfl (by decide) (by decide)).1,
   ((c6_repair_clears_amended nowMorning rC6).2.2 "2026-05-01" "99:99" ⟨2026, 5, 1⟩
      rfl (by decide) (by decide) rfl (by decide)).2⟩

/-- C8: the temporal calculator contract (spec-modelled, since
`calculate_relative_time` is absent from `src/utils/datetime_helper.py`):
for every reference instant and `days ≥ 0`, `hours ∈ [0, 23]`,
`minutes ∈ [0, 59]`, the computed date parses back to `now.date + days` and
the computed time parses back to `hours:minutes` as an absolute hour of day,
and the result does not depend on `now`'s own time-of-day. -/
theorem c8_temporal_calculator (now : DateTime) (days hours minutes : Nat)
    (hh : hours ≤ 23) (hm : minutes ≤ 59) (hv : ValidDate now.date)
    (hy1 : 1000 ≤ now.date.year) (hy2 : (addDays now.date days).year ≤ 9999) :
    parseDate (calculate_relative_time now days hours minutes).1 =
        some (addDays now.date days) ∧
    parseTimeChars ((calculate_relative_time now days hours minutes).2).data =
        some (60 * hours + minutes) ∧
    ∀ t : Nat, calculate_relative_time ⟨now.date, t⟩ days hours minutes =
        calculate_relative_time now days hours minutes := by
  refine ⟨?_, ?_, fun t => rfl⟩
  · exact parseDate_formatDate _ (validDate_addDays _ _ hv)
      (le_trans hy1 (addDays_year_ge _ _)) hy2
  · exact parse_format_time _ (by omega)

/-- Witness for C8: three days ahead of 2026-03-10 at 15:45. -/
theorem c8_temporal_calculator_witness :
    parseDate (calculate_relative_time nowMorning 3 15 45).1 =
        some (addDays nowMorning.date 3) ∧
    parseTimeChars ((calculate_relative_time nowMorning 3 15 45).2).data =
        some (60 * 15 + 45) :=
  ⟨(c8_temporal_calculator nowMorning 3 15 45 (by decide) (by decide) (by decide)
      (by decide) (by decide)).1,
   (c8_temporal_calculator nowMorning 3 15 45 (by decide) (by decide) (by decide)
      (by decide) (by decide)).2.1⟩

/-- The due-date rule is a closure: applying it twice equals applying it
once (under the year bounds within which Python's `datetime` arithmetic is
defined). -/
theorem fixDue_fix (now : DateTime) (hv : ValidDate now.date)
    (hy1 : 1000 ≤ now.date.year) (hy2 : now.date.year < 9999) (f : JField) :
    fixDue now (fixDue now f) = fixDue now f := by
  cases f with
  | absent => rfl
  | null => rfl
  | str s =>
    cases he : s.data.isEmpty with
    | true =>
      have h1 : fixDue now (JField.str s) = JField.str s := by simp [fixDue, he]
      rw [h1, h1]
    | false =>
      cases hp : parseDate s with
      | none =>
        have h1 : fixDue now (JField.str s) = JField.null := by
          simp [fixDue, he, hp]
        rw [h1]
        rfl
      | some d =>
        by_cases hlt : dateLt d now.date
        · have h1 : fixDue now (JField.str s) =
              JField.str (formatDate (nextDay now.date)) := by
            simp [fixDue, he, hp, hlt]
          rw [h1]
          have hvt : ValidDate (nextDay now.date) := validDate_nextDay _ hv
          have hpf : parseDate (formatDate (nextDay now.date)) =
              some (nextDay now.date) :=
            parseDate_formatDate _ hvt (le_trans hy1 (nextDay_year_ge _))
              (le_trans (nextDay_year_le _) (by omega))
          simp [fixDue, formatDate_isEmpty_false, hpf, not_dateLt_nextDay]
        · have h1 : fixDue now (JField.str s) = JField.str s := by
            simp [fixDue, he, hp, hlt]
          rw [h1, h1]

/-- A reminder pair freshly written by the repair — today's date plus a
strictly future time on the same day — is left unchanged by the reminder
rule. -/
theorem fixReminder_fresh (now : DateTime) (hv : ValidDate now.date)
    (hy1 : 1000 ≤ now.date.year) (hy2 : now.date.year < 9999)
    (T : Nat) (hT : now.time < T) (hT2 : T < 1440) :
    fixReminder now (JField.str (formatDate now.date)) (JField.str (formatTime T)) =
      (JField.str (formatDate now.date), JField.str (formatTime T)) := by
  have hpf : parseDate (formatDate now.date) = some now.date :=
    parseDate_formatDate _ hv hy1 (by omega)
  have htv : parseTimeWs (formatTime T) = some T := parseTimeWs_formatTime T hT2
  have hnle : ¬ dtLe now.date T now := by
    unfold dtLe
    rintro (hc | ⟨he, hc⟩)
    · exact not_dateLt_self _ hc
    · omega
  simp [fixReminder, formatDate_isEmpty_false, hpf, reminderTimeVal, htv, hnle]

/-- The reminder rule is a closure when `now + 1` hour stays on the same
calendar day. -/
theorem fixReminder_fix (now : DateTime) (hv : ValidDate now.date)
    (hy1 : 1000 ≤ now.date.year) (hy2 : now.date.year < 9999)
    (ht : now.time + 60 < 1440) (rd rt : JField) :
    fixReminder now (fixReminder now rd rt).1 (fixReminder now rd rt).2 =
      fixReminder now rd rt := by
  have h30 : addMinutes now 30 = ⟨now.date, now.time + 30⟩ := by
    unfold addMinutes
    rw [if_pos (by omega)]
  have h60 : addMinutes now 60 = ⟨now.date, now.time + 60⟩ := by
    unfold addMinutes
    rw [if_pos (by omega)]
  cases rd with
  | absent => rfl
  | null => rfl
  | str s =>
    cases he : s.data.isEmpty with
    | true =>
      have h1 : fixReminder now (JField.str s) rt = (JField.str s, rt) := by
        simp [fixReminder, he]
      rw [h1]
      simpa using h1
    | false =>
      cases hp : parseDate s with
      | none =>
        have h1 : fixReminder now (JField.str s) rt = (JField.null, JField.null) := by
          simp [fixReminder, he, hp]
        rw [h1]
        rfl
      | some d =>
        cases htv : (reminderTimeVal rt).bind (fun t => parseTimeWs t) with
        | some tm =>
          by_cases hle : dtLe d tm now
          · have h1 : fixReminder now (JField.str s) rt =
                (JField.str (formatDate now.date),
                 JField.str (formatTime (now.time + 30))) := by
              simp [fixReminder, he, hp, htv, hle, h30]
            rw [h1]
            show fixReminder now (JField.str (formatDate now.date))
                (JField.str (formatTime (now.time + 30))) = _
            exact fixReminder_fresh now hv hy1 hy2 (now.time + 30) (by omega) (by omega)
          · have h1 : fixReminder now (JField.str s) rt = (JField.str s, rt) := by
              simp [fixReminder, he, hp, htv, hle]
            rw [h1]
            simpa using h1
        | none =>
          by_cases hlt : dateLt d now.date
          · have h1 : fixReminder now (JField.str s) rt =
                (JField.str (formatDate now.date),
                 JField.str (formatTime (now.time + 60))) := by
              simp [fixReminder, he, hp, htv, hlt, h60]
            rw [h1]
            show fixReminder now (JField.str (formatDate now.date))
                (JField.str (formatTime (now.time + 60))) = _
            exact fixReminder_fresh now hv hy1 hy2 (now.time + 60) (by omega) (by omega)
          · by_cases heq : d = now.date
            · subst heq
              have h1 : fixReminder now (JField.str s) rt =
                  (JField.str s, JField.str (formatTime (now.time + 30))) := by
                simp [fixReminder, he, hp, htv, hlt, h30]
              rw [h1]
              have htv2 : parseTimeWs (formatTime (now.time + 30)) =
                  some (now.time + 30) := parseTimeWs_formatTime _ (by omega)
              have hnle : ¬ dtLe now.date (now.time + 30) now := by
                unfold dtLe
                rintro (hc | ⟨hc1, hc2⟩)
                · exact not_dateLt_self _ hc
                · omega
              show fixReminder now (JField.str s)
                  (JField.str (formatTime (now.time + 30))) = _
              simp [fixReminder, he, hp, reminderTimeVal, htv2, hnle]
            · have h1 : fixReminder now (JField.str s) rt = (JField.str s, rt) := by
                simp [fixReminder, he, hp, htv, hlt, heq]
              rw [h1]
              simpa using h1

/-- C7 counterexample: repair is not idempotent.  At 2026-03-10 23:30, a
draft with a past reminder date and an unparsable reminder time is repaired
through the conservative branch to today's date with time `now + 1` hour —
which has rolled past midnight, so the written pair denotes a past instant
and a second repair changes it again (to `now + 30` minutes). -/
theorem c7_counterexample :
    validate_and_fix_dates nowLate (validate_and_fix_dates nowLate rC7) ≠
      validate_and_fix_dates nowLate rC7 := by decide

/-- C7 (amended): repair is idempotent for every draft provided the
reference instant is early enough in the day that `now + 1` hour stays on
the same calendar date (and `now`'s date is a valid date with a four-digit
year below 9999, the range in which Python's date arithmetic is defined);
without the same-day proviso the conservative branch for an unparsable
reminder time can write a rolled-over time that a second repair changes
again. -/
theorem c7_repair_idempotent_amended (now : DateTime) (r : Draft)
    (hv : ValidDate now.date) (hy1 : 1000 ≤ now.date.year)
    (hy2 : now.date.year < 9999) (ht : now.time + 60 < 1440) :
    validate_and_fix_dates now (validate_and_fix_dates now r) =
      validate_and_fix_dates now r := by
  apply Draft.ext
  · rfl
  · rfl
  · rfl
  · exact fixDue_fix now hv hy1 hy2 r.due_date
  · exact congrArg Prod.fst
      (fixReminder_fix now hv hy1 hy2 ht r.reminder_date r.reminder_time)
  · exact congrArg Prod.snd
      (fixReminder_fix now hv hy1 hy2 ht r.reminder_date r.reminder_time)
  · rfl
  · rfl
  · rfl
  · rfl
  · rfl
  · rfl

/-- Witness for the amended C7: idempotence at 2026-03-10 10:00 on the
draft with a past due date and past reminder. -/
theorem c7_repair_idempotent_amended_witness :
    validate_and_fix_dates nowMorning (validate_and_fix_dates nowMorning rC3) =
      validate_and_fix_dates nowMorning rC3 :=
  c7_repair_idempotent_amended nowMorning rC3 (by decide) (by decide) (by decide)
    (by decide)

/-- C9 counterexample: on text whose first balanced brace-delimited
substring is a valid JSON object of nesting depth three, the parser does not
return the object parsed from that first balanced substring — the brace
regex (nesting depth at most two) matches an inner fragment instead, so the
parser returns the object keyed `"b"` rather than the outer object keyed
`"a"`. -/
theorem c9_counterexample :
    json_loads (stripFences exC9) = none ∧
    (specFirstBalancedJsonParse exC9).map (jsonHasKey "a") = some true ∧
    (robust_json_parse exC9).map (jsonHasKey "a") = some false ∧
    robust_json_parse exC9 ≠ specFirstBalancedJsonParse exC9 := by
  refine ⟨rfl, rfl, rfl, ?_⟩
  intro h
  have h2 := congrArg (Option.map (jsonHasKey "a")) h
  rw [show (robust_json_parse exC9).map (jsonHasKey "a") = some false from rfl,
    show (specFirstBalancedJsonParse exC9).map (jsonHasKey "a") = some true
      from rfl] at h2
  exact Bool.noConfusion (Option.some.inj h2)

/-- C9 (amended): when direct parsing of the fence-stripped text fails, the
second strategy parses the first match of the depth-bounded brace regex
(not the first balanced substring), short-circuiting before the
quote-substitution strategy; and when the regex yields nothing parsable and
the quote-substituted retry also fails, the parser returns `None` — it is a
total function, so it never raises. -/
theorem c9_parser_amended (content : String)
    (h1 : json_loads (stripFences content) = none) :
    (∀ m v, regexSearchBrace (stripFences content).data = some m →
      json_loads (String.mk m) = some v → robust_json_parse content = some v) ∧
    (((regexSearchBrace (stripFences content).data).bind
        (fun m => json_loads (String.mk m))) = none →
      json_loads (pyReplaceQuotes (stripFences content)) = none →
      robust_json_parse content = none) := by
  constructor
  · intro m v hm hv
    simp [robust_json_parse, h1, hm, hv]
  · intro h2 h3
    cases hm : regexSearchBrace (stripFences content).data with
    | none => simp [robust_json_parse, h1, hm, h3]
    | some m =>
      rw [hm] at h2
      have h4 : json_loads (String.mk m) = none := by simpa using h2
      simp [robust_json_parse, h1, hm, h4, h3]

/-- Witness for the amended C9: junk followed by a depth-one object is
parsed by the second strategy, both for an integer payload and for a
fractional payload (`0.5`). -/
theorem c9_parser_amended_witness :
    robust_json_parse exC9w = some (Json.obj [("a", Json.num 1 0)]) ∧
    robust_json_parse exC9f = some (Json.obj [("a", Json.num 5 (-1))]) :=
  ⟨(c9_parser_amended exC9w rfl).1 [lbrace, qm, 'a', qm, ':', '1', rbrace]
      (Json.obj [("a", Json.num 1 0)]) rfl rfl,
   (c9_parser_amended exC9f rfl).1
      [lbrace, qm, 'a', qm, ':', ' ', '0', '.', '5', rbrace]
      (Json.obj [("a", Json.num 5 (-1))]) rfl rfl⟩
